import Mathlib

/-!
Shallow embedding of the GPU resource and frame-synchronization engine of the
VulkanRenderer repository (`vulkan_context.cpp`, `vulkan_renderer.cpp`,
`mesh.cpp`, `texture.cpp`, `skybox.cpp`), together with proofs about the
embedded definitions.
-/

namespace VkSpec

/-- One entry of `vk::PhysicalDeviceMemoryProperties::memoryTypes`: the
`propertyFlags` bitmask of one device memory type. -/
structure MemoryType where
  propertyFlags : Nat
  deriving DecidableEq, Repr

/-- `vk::PhysicalDeviceMemoryProperties`; `memoryTypeCount` is the length of
`memoryTypes`. -/
structure PhysicalDeviceMemoryProperties where
  memoryTypes : List MemoryType
  deriving DecidableEq, Repr

/-- The loop test of `findMemoryType` (`mesh.cpp:173-174`, `texture.cpp:295`,
`vulkan_renderer.cpp:887-888`): bit `i` of `type_filter` is set
(`type_filter & (1 << i)`) and the memory type's `propertyFlags` contain every
requested `properties` bit (`(flags & properties) == properties`). -/
def memoryTypeMatches (t : MemoryType) (i typeFilter properties : Nat) : Bool :=
  typeFilter.testBit i && (t.propertyFlags &&& properties == properties)

/-- The `for` loop of `findMemoryType`, scanning the memory types from index
`i` upward and returning the first matching index. -/
def findMemoryTypeFrom (types : List MemoryType) (i typeFilter properties : Nat) : Option Nat :=
  match types with
  | [] => none
  | t :: rest =>
    if memoryTypeMatches t i typeFilter properties then some i
    else findMemoryTypeFrom rest (i + 1) typeFilter properties

/-- `Mesh::findMemoryType` (`mesh.cpp:169-180`), `Texture::findMemoryType`
(`texture.cpp:291-301`) and `VulkanRenderer::findMemoryType`
(`vulkan_renderer.cpp:883-894`) are textually identical: scan the device's
memory types from index 0; `none` models the `std::runtime_error` thrown when
no index qualifies. -/
def findMemoryType (mem : PhysicalDeviceMemoryProperties) (typeFilter properties : Nat) :
    Option Nat :=
  findMemoryTypeFrom mem.memoryTypes 0 typeFilter properties

theorem findMemoryTypeFrom_some (types : List MemoryType) (i typeFilter properties r : Nat)
    (h : findMemoryTypeFrom types i typeFilter properties = some r) :
    i ≤ r ∧ r - i < types.length ∧
      (∃ t, types[r - i]? = some t ∧ memoryTypeMatches t r typeFilter properties = true) ∧
      ∀ j, i ≤ j → j < r → ∀ t', types[j - i]? = some t' →
        memoryTypeMatches t' j typeFilter properties = false := by
  induction types generalizing i with
  | nil => simp [findMemoryTypeFrom] at h
  | cons t rest ih =>
    rw [findMemoryTypeFrom] at h
    by_cases hm : memoryTypeMatches t i typeFilter properties = true
    · rw [if_pos hm] at h
      obtain rfl : i = r := Option.some.inj h
      refine ⟨le_refl i, by simp, ⟨t, by simp, hm⟩, ?_⟩
      intro j hij hji
      omega
    · rw [if_neg hm] at h
      obtain ⟨h1, h2, ⟨t', ht', hm'⟩, hmin⟩ := ih (i + 1) h
      have hir : i + 1 ≤ r := h1
      refine ⟨by omega, ?_, ?_, ?_⟩
      · simp only [List.length_cons]
        omega
      · refine ⟨t', ?_, hm'⟩
        have hri : r - i = (r - (i + 1)) + 1 := by omega
        rw [hri]
        simpa using ht'
      · intro j hij hjr t'' hget
        rcases Nat.eq_or_lt_of_le hij with hji | hji
        · subst hji
          have ht0 : t'' = t := by
            rw [Nat.sub_self] at hget
            simpa using hget.symm
          rw [ht0]
          exact Bool.eq_false_iff.mpr hm
        · have hj1 : j - i = (j - (i + 1)) + 1 := by omega
          rw [hj1] at hget
          simp only [List.getElem?_cons_succ] at hget
          exact hmin j hji hjr t'' hget

theorem findMemoryTypeFrom_none (types : List MemoryType) (i typeFilter properties : Nat)
    (h : findMemoryTypeFrom types i typeFilter properties = none) :
    ∀ k t', types[k]? = some t' → memoryTypeMatches t' (i + k) typeFilter properties = false := by
  induction types generalizing i with
  | nil => intro k t' hget; simp at hget
  | cons t rest ih =>
    rw [findMemoryTypeFrom] at h
    by_cases hm : memoryTypeMatches t i typeFilter properties = true
    · rw [if_pos hm] at h
      exact absurd h (by simp)
    · rw [if_neg hm] at h
      intro k t' hget
      cases k with
      | zero =>
        have ht0 : t' = t := by simpa using hget.symm
        rw [ht0, Nat.add_zero]
        exact Bool.eq_false_iff.mpr hm
      | succ k' =>
        simp only [List.getElem?_cons_succ] at hget
        have := ih (i + 1) h k' t' hget
        have harith : i + 1 + k' = i + (k' + 1) := by omega
        rw [harith] at this
        exact this

/-- C3: for every type-filter bitmask and requested property-flag set,
`findMemoryType` returns the first (lowest) index `r` below the memory-type
count whose filter bit is set and whose property flags are a superset of the
requested flags; when no index qualifies it returns `none` (the C++ throws
`std::runtime_error`) rather than an incompatible index. -/
theorem C3_findMemoryType_first_superset (mem : PhysicalDeviceMemoryProperties)
    (typeFilter properties : Nat) :
    (∀ r, findMemoryType mem typeFilter properties = some r →
        r < mem.memoryTypes.length ∧
        typeFilter.testBit r = true ∧
        (∃ t, mem.memoryTypes[r]? = some t ∧ t.propertyFlags &&& properties = properties) ∧
        ∀ j t', j < r → mem.memoryTypes[j]? = some t' →
          memoryTypeMatches t' j typeFilter properties = false) ∧
    (findMemoryType mem typeFilter properties = none →
        ∀ j t', mem.memoryTypes[j]? = some t' →
          memoryTypeMatches t' j typeFilter properties = false) := by
  constructor
  · intro r hr
    obtain ⟨h1, h2, ⟨t, ht, hm⟩, hmin⟩ :=
      findMemoryTypeFrom_some mem.memoryTypes 0 typeFilter properties r hr
    rw [Nat.sub_zero] at h2 ht
    have hm' := hm
    rw [memoryTypeMatches, Bool.and_eq_true, beq_iff_eq] at hm'
    refine ⟨h2, hm'.1, ⟨t, ht, hm'.2⟩, ?_⟩
    intro j t' hj hget
    have := hmin j (Nat.zero_le j) hj t'
    rw [Nat.sub_zero] at this
    exact this hget
  · intro hn j t' hget
    have := findMemoryTypeFrom_none mem.memoryTypes 0 typeFilter properties hn j t' hget
    rwa [Nat.zero_add] at this

theorem C3_witness :
    1 < (PhysicalDeviceMemoryProperties.mk [⟨0⟩, ⟨3⟩]).memoryTypes.length ∧
      Nat.testBit 2 1 = true ∧
      (∃ t, (PhysicalDeviceMemoryProperties.mk [⟨0⟩, ⟨3⟩]).memoryTypes[1]? = some t ∧
        t.propertyFlags &&& 1 = 1) ∧
      ∀ j t', j < 1 → (PhysicalDeviceMemoryProperties.mk [⟨0⟩, ⟨3⟩]).memoryTypes[j]? = some t' →
        memoryTypeMatches t' j 2 1 = false :=
  (C3_findMemoryType_first_superset ⟨[⟨0⟩, ⟨3⟩]⟩ 2 1).1 1 (by decide)

/-- The device-side outcomes that drive one `createBuffer` call
(`mesh.cpp:124-157` and the textually identical `texture.cpp:255-289`):
whether `vk::Device::createBuffer` succeeds, the `memoryTypeBits` reported by
`getBufferMemoryRequirements` for the new buffer, the device memory-type
table, and whether `allocateMemory` and `bindBufferMemory` succeed. -/
structure BufferDevice where
  createBufferOk : Bool
  memoryTypeBits : Nat
  memProps : PhysicalDeviceMemoryProperties
  allocateMemoryOk : Bool
  bindBufferMemoryOk : Bool
  deriving DecidableEq, Repr

/-- How a `createBuffer` call finishes: returning `true`, returning `false`,
or letting an exception escape (the `std::runtime_error` of `findMemoryType`,
which no `try` block in `createBuffer` covers). -/
inductive CreateBufferExit where
  | returnedTrue
  | returnedFalse
  | threw
  deriving DecidableEq, Repr

/-- The observable result of `createBuffer`: its exit kind, plus which of the
two resources are still allocated (not destroyed/freed) when control leaves
the function, and whether the memory was bound to the buffer. -/
structure CreateBufferResult where
  exit : CreateBufferExit
  bufferAllocated : Bool
  memoryAllocated : Bool
  bound : Bool
  deriving DecidableEq, Repr

/-- `Mesh::createBuffer` (`mesh.cpp:124-157`) = `Texture::createBuffer`
(`texture.cpp:255-289`). Control flow from the source: a `try` around
`device.createBuffer` (returns `false` on failure, nothing allocated yet);
then `findMemoryType` is called with no surrounding `try`, so when it throws
the exception escapes with the buffer already created and not destroyed;
then a `try` around `allocateMemory` + `bindBufferMemory` whose `catch`
destroys the buffer (but does not free memory that a throwing
`bindBufferMemory` would leave allocated) and returns `false`. -/
def createBuffer (dev : BufferDevice) (_size _usage properties : Nat) : CreateBufferResult :=
  if dev.createBufferOk = false then
    { exit := .returnedFalse, bufferAllocated := false, memoryAllocated := false, bound := false }
  else
    match findMemoryType dev.memProps dev.memoryTypeBits properties with
    | none =>
      { exit := .threw, bufferAllocated := true, memoryAllocated := false, bound := false }
    | some _ =>
      if dev.allocateMemoryOk = false then
        { exit := .returnedFalse, bufferAllocated := false, memoryAllocated := false,
          bound := false }
      else if dev.bindBufferMemoryOk = false then
        { exit := .returnedFalse, bufferAllocated := false, memoryAllocated := true,
          bound := false }
      else
        { exit := .returnedTrue, bufferAllocated := true, memoryAllocated := true, bound := true }

/-- C2 counterexample: a device whose only memory type has no property flags,
with a requested host-visible-like flag (bit 0). `findMemoryType` finds no
compatible type, so `createBuffer` exits by an uncaught exception with the
already-created buffer handle still allocated — it neither returns a bound
pair nor reports failure with zero resources left allocated. -/
theorem C2_counterexample :
    (createBuffer ⟨true, 1, ⟨[⟨0⟩]⟩, true, true⟩ 4 1 1).exit = CreateBufferExit.threw ∧
      (createBuffer ⟨true, 1, ⟨[⟨0⟩]⟩, true, true⟩ 4 1 1).bufferAllocated = true := by
  decide

/-- C2 (amended): `createBuffer` either returns a bound buffer+memory pair,
or returns `false` with the buffer destroyed (memory can remain allocated
only if `bindBufferMemory` was the failing call), or — exactly when buffer
creation succeeded but no compatible memory type exists — fails by an
uncaught exception that leaks the already-created buffer handle. -/
theorem C2_createBuffer_exits (dev : BufferDevice) (size usage properties : Nat) :
    ((createBuffer dev size usage properties).exit = CreateBufferExit.returnedTrue →
        (createBuffer dev size usage properties).bufferAllocated = true ∧
        (createBuffer dev size usage properties).memoryAllocated = true ∧
        (createBuffer dev size usage properties).bound = true) ∧
    ((createBuffer dev size usage properties).exit = CreateBufferExit.returnedFalse →
        (createBuffer dev size usage properties).bufferAllocated = false ∧
        (createBuffer dev size usage properties).bound = false ∧
        ((createBuffer dev size usage properties).memoryAllocated = true →
          dev.bindBufferMemoryOk = false)) ∧
    ((createBuffer dev size usage properties).exit = CreateBufferExit.threw ↔
        dev.createBufferOk = true ∧
        findMemoryType dev.memProps dev.memoryTypeBits properties = none) ∧
    ((createBuffer dev size usage properties).exit = CreateBufferExit.threw →
        (createBuffer dev size usage properties).bufferAllocated = true ∧
        (createBuffer dev size usage properties).memoryAllocated = false) := by
  cases hc : dev.createBufferOk <;>
    cases hm : findMemoryType dev.memProps dev.memoryTypeBits properties <;>
      cases ha : dev.allocateMemoryOk <;>
        cases hb : dev.bindBufferMemoryOk <;>
          simp [createBuffer, hc, hm, ha, hb]

theorem C2_witness :
    (createBuffer ⟨true, 1, ⟨[⟨1⟩]⟩, true, true⟩ 4 1 1).bufferAllocated = true ∧
      (createBuffer ⟨true, 1, ⟨[⟨1⟩]⟩, true, true⟩ 4 1 1).memoryAllocated = true ∧
      (createBuffer ⟨true, 1, ⟨[⟨1⟩]⟩, true, true⟩ 4 1 1).bound = true :=
  (C2_createBuffer_exits ⟨true, 1, ⟨[⟨1⟩]⟩, true, true⟩ 4 1 1).1 (by decide)

/-- The `vk::ImageLayout` values the repository's code mentions or that a
caller could request. -/
inductive ImageLayout where
  | undefined
  | general
  | colorAttachmentOptimal
  | depthStencilAttachmentOptimal
  | shaderReadOnlyOptimal
  | transferSrcOptimal
  | transferDstOptimal
  | preinitialized
  | presentSrcKHR
  deriving DecidableEq, Repr

/-- The access-mask values assigned by `transitionImageLayout`. -/
inductive AccessMask where
  | noAccess
  | transferWrite
  | shaderRead
  deriving DecidableEq, Repr

/-- The pipeline-stage values assigned by `transitionImageLayout`. -/
inductive PipelineStage where
  | topOfPipe
  | transfer
  | fragmentShader
  deriving DecidableEq, Repr

/-- The barrier parameters `transitionImageLayout` fills in before issuing the
`pipelineBarrier`. -/
structure BarrierConfig where
  srcAccessMask : AccessMask
  dstAccessMask : AccessMask
  sourceStage : PipelineStage
  destinationStage : PipelineStage
  deriving DecidableEq, Repr

namespace Texture

/-- `Texture::transitionImageLayout` (`texture.cpp:199-235`): the two-way
`if`/`else if` ladder choosing access masks and stages; `none` models the
`std::invalid_argument` thrown for every other layout pair. -/
def transitionImageLayout (old_layout new_layout : ImageLayout) : Option BarrierConfig :=
  if old_layout = ImageLayout.undefined ∧ new_layout = ImageLayout.transferDstOptimal then
    some ⟨AccessMask.noAccess, AccessMask.transferWrite,
      PipelineStage.topOfPipe, PipelineStage.transfer⟩
  else if old_layout = ImageLayout.transferDstOptimal ∧
      new_layout = ImageLayout.shaderReadOnlyOptimal then
    some ⟨AccessMask.transferWrite, AccessMask.shaderRead,
      PipelineStage.transfer, PipelineStage.fragmentShader⟩
  else
    none

end Texture

namespace SkyBox

/-- `SkyBox::transitionImageLayout` (`skybox.cpp:528-570`): same ladder as the
`Texture` version; the extra `layer_count` argument only sizes the subresource
range and is returned alongside the chosen barrier parameters. -/
def transitionImageLayout (old_layout new_layout : ImageLayout) (layer_count : Nat) :
    Option (BarrierConfig × Nat) :=
  if old_layout = ImageLayout.undefined ∧ new_layout = ImageLayout.transferDstOptimal then
    some (⟨AccessMask.noAccess, AccessMask.transferWrite,
      PipelineStage.topOfPipe, PipelineStage.transfer⟩, layer_count)
  else if old_layout = ImageLayout.transferDstOptimal ∧
      new_layout = ImageLayout.shaderReadOnlyOptimal then
    some (⟨AccessMask.transferWrite, AccessMask.shaderRead,
      PipelineStage.transfer, PipelineStage.fragmentShader⟩, layer_count)
  else
    none

end SkyBox

/-- C8: for every requested layout pair, `transitionImageLayout` (both the
`Texture` and the `SkyBox` version) succeeds exactly on
undefined→transfer-destination (access none→transfer-write, stages
top-of-pipe→transfer) and transfer-destination→shader-read-only (access
transfer-write→shader-read, stages transfer→fragment-shader), with exactly
those assignments; every other pair yields the `std::invalid_argument`
programming-error fault, which nothing in the repository catches. -/
theorem C8_layout_transition_policy (old_layout new_layout : ImageLayout) (layer_count : Nat) :
    (∀ cfg, Texture.transitionImageLayout old_layout new_layout = some cfg ↔
      (old_layout = ImageLayout.undefined ∧ new_layout = ImageLayout.transferDstOptimal ∧
        cfg = ⟨AccessMask.noAccess, AccessMask.transferWrite,
          PipelineStage.topOfPipe, PipelineStage.transfer⟩) ∨
      (old_layout = ImageLayout.transferDstOptimal ∧
        new_layout = ImageLayout.shaderReadOnlyOptimal ∧
        cfg = ⟨AccessMask.transferWrite, AccessMask.shaderRead,
          PipelineStage.transfer, PipelineStage.fragmentShader⟩)) ∧
    (Texture.transitionImageLayout old_layout new_layout = none ↔
      ¬ ((old_layout = ImageLayout.undefined ∧
          new_layout = ImageLayout.transferDstOptimal) ∨
        (old_layout = ImageLayout.transferDstOptimal ∧
          new_layout = ImageLayout.shaderReadOnlyOptimal))) ∧
    (SkyBox.transitionImageLayout old_layout new_layout layer_count =
      (Texture.transitionImageLayout old_layout new_layout).map (fun cfg => (cfg, layer_count))) := by
  refine ⟨?_, ?_, ?_⟩
  · intro cfg
    cases old_layout <;> cases new_layout <;>
      simp [Texture.transitionImageLayout, eq_comm]
  · cases old_layout <;> cases new_layout <;> decide
  · rw [Texture.transitionImageLayout, SkyBox.transitionImageLayout]
    cases old_layout <;> cases new_layout <;> simp

/-- The `vk::Format` values relevant to swap-surface selection. -/
inductive Format where
  | b8g8r8a8Srgb
  | r8g8b8a8Srgb
  | b8g8r8a8Unorm
  | r8g8b8a8Unorm
  deriving DecidableEq, Repr

/-- The `vk::ColorSpaceKHR` values relevant to swap-surface selection. -/
inductive ColorSpace where
  | srgbNonlinear
  | hdr10ST2084
  deriving DecidableEq, Repr

/-- `vk::SurfaceFormatKHR`. -/
structure SurfaceFormatKHR where
  format : Format
  colorSpace : ColorSpace
  deriving DecidableEq, Repr

/-- `vk::PresentModeKHR`. -/
inductive PresentModeKHR where
  | immediateKHR
  | mailbox
  | fifo
  | fifoRelaxed
  deriving DecidableEq, Repr

/-- `vk::Extent2D`. -/
structure Extent2D where
  width : Nat
  height : Nat
  deriving DecidableEq, Repr

/-- The fields of `vk::SurfaceCapabilitiesKHR` read by `chooseSwapExtent`. -/
structure SurfaceCapabilitiesKHR where
  currentExtent : Extent2D
  minImageExtent : Extent2D
  maxImageExtent : Extent2D
  deriving DecidableEq, Repr

/-- `std::numeric_limits<uint32_t>::max()`. -/
def UINT32_MAX : Nat := 4294967295

/-- `VulkanContext::chooseSwapSurfaceFormat` (`vulkan_context.cpp:389-397`):
return the first available format equal to B8G8R8A8-sRGB with sRGB-nonlinear
color space, else `available_formats[0]`; `none` models the out-of-bounds
index on an empty list, which Vulkan rules out. -/
def chooseSwapSurfaceFormat (available_formats : List SurfaceFormatKHR) :
    Option SurfaceFormatKHR :=
  match available_formats.find? (fun f =>
      decide (f.format = Format.b8g8r8a8Srgb ∧ f.colorSpace = ColorSpace.srgbNonlinear)) with
  | some f => some f
  | none => available_formats.head?

/-- `VulkanContext::chooseSwapPresentMode` (`vulkan_context.cpp:399-406`):
return mailbox when available, else FIFO. -/
def chooseSwapPresentMode (available_present_modes : List PresentModeKHR) : PresentModeKHR :=
  match available_present_modes.find? (fun m => decide (m = PresentModeKHR.mailbox)) with
  | some m => m
  | none => PresentModeKHR.fifo

/-- `std::clamp(v, lo, hi)`. -/
def stdClamp (v lo hi : Nat) : Nat :=
  if v < lo then lo else if hi < v then hi else v

/-- `VulkanContext::chooseSwapExtent` (`vulkan_context.cpp:408-425`): the
surface's `currentExtent` when its width is not the `uint32_t` max sentinel,
otherwise the GLFW framebuffer size with each dimension clamped to the
surface's min/max image-extent bounds. -/
def chooseSwapExtent (capabilities : SurfaceCapabilitiesKHR) (fbWidth fbHeight : Nat) :
    Extent2D :=
  if capabilities.currentExtent.width ≠ UINT32_MAX then
    capabilities.currentExtent
  else
    { width := stdClamp fbWidth capabilities.minImageExtent.width
        capabilities.maxImageExtent.width,
      height := stdClamp fbHeight capabilities.minImageExtent.height
        capabilities.maxImageExtent.height }

/-- C9: swap-chain parameter selection. For a non-empty format list the choice
is B8G8R8A8-sRGB/sRGB-nonlinear when present, else the first element; the
present mode is mailbox when present, else FIFO; under Vulkan's guarantee that
the undefined-extent sentinel sets both dimensions to the `uint32_t` max, the
extent is `currentExtent` when defined, else the framebuffer size clamped
dimension-wise to the surface bounds. -/
theorem C9_swap_chain_parameter_selection (available_formats : List SurfaceFormatKHR)
    (available_present_modes : List PresentModeKHR)
    (capabilities : SurfaceCapabilitiesKHR) (fbWidth fbHeight : Nat)
    (hformats : available_formats ≠ [])
    (hsentinel : capabilities.currentExtent.width = UINT32_MAX ↔
      capabilities.currentExtent.height = UINT32_MAX) :
    ((SurfaceFormatKHR.mk Format.b8g8r8a8Srgb ColorSpace.srgbNonlinear ∈ available_formats →
        chooseSwapSurfaceFormat available_formats =
          some ⟨Format.b8g8r8a8Srgb, ColorSpace.srgbNonlinear⟩) ∧
      (SurfaceFormatKHR.mk Format.b8g8r8a8Srgb ColorSpace.srgbNonlinear ∉ available_formats →
        chooseSwapSurfaceFormat available_formats = available_formats.head?) ∧
      chooseSwapSurfaceFormat available_formats ≠ none) ∧
    ((PresentModeKHR.mailbox ∈ available_present_modes →
        chooseSwapPresentMode available_present_modes = PresentModeKHR.mailbox) ∧
      (PresentModeKHR.mailbox ∉ available_present_modes →
        chooseSwapPresentMode available_present_modes = PresentModeKHR.fifo)) ∧
    ((capabilities.currentExtent ≠ ⟨UINT32_MAX, UINT32_MAX⟩ →
        chooseSwapExtent capabilities fbWidth fbHeight = capabilities.currentExtent) ∧
      (capabilities.currentExtent = ⟨UINT32_MAX, UINT32_MAX⟩ →
        chooseSwapExtent capabilities fbWidth fbHeight =
          ⟨stdClamp fbWidth capabilities.minImageExtent.width
              capabilities.maxImageExtent.width,
            stdClamp fbHeight capabilities.minImageExtent.height
              capabilities.maxImageExtent.height⟩)) := by
  refine ⟨⟨?_, ?_, ?_⟩, ⟨?_, ?_⟩, ⟨?_, ?_⟩⟩
  · intro hmem
    rw [chooseSwapSurfaceFormat]
    have hsome : (available_formats.find? (fun f =>
        decide (f.format = Format.b8g8r8a8Srgb ∧
          f.colorSpace = ColorSpace.srgbNonlinear))).isSome := by
      rw [List.find?_isSome]
      exact ⟨_, hmem, by decide⟩
    obtain ⟨f, hf⟩ := Option.isSome_iff_exists.mp hsome
    rw [hf]
    have hpred := List.find?_some hf
    rw [decide_eq_true_iff] at hpred
    have : f = ⟨Format.b8g8r8a8Srgb, ColorSpace.srgbNonlinear⟩ := by
      cases f
      simp only [SurfaceFormatKHR.mk.injEq]
      exact hpred
    rw [this]
  · intro hmem
    rw [chooseSwapSurfaceFormat]
    have hnone : available_formats.find? (fun f =>
        decide (f.format = Format.b8g8r8a8Srgb ∧
          f.colorSpace = ColorSpace.srgbNonlinear)) = none := by
      rw [List.find?_eq_none]
      intro f hfmem hpred
      rw [decide_eq_true_iff] at hpred
      have : f = ⟨Format.b8g8r8a8Srgb, ColorSpace.srgbNonlinear⟩ := by
        cases f
        simp only [SurfaceFormatKHR.mk.injEq]
        exact hpred
      exact hmem (this ▸ hfmem)
    rw [hnone]
  · rw [chooseSwapSurfaceFormat]
    cases hfind : available_formats.find? (fun f =>
        decide (f.format = Format.b8g8r8a8Srgb ∧
          f.colorSpace = ColorSpace.srgbNonlinear)) with
    | none =>
      simp only []
      cases available_formats with
      | nil => exact absurd rfl hformats
      | cons a rest => simp
    | some f => simp
  · intro hmem
    rw [chooseSwapPresentMode]
    have hsome : (available_present_modes.find? (fun m =>
        decide (m = PresentModeKHR.mailbox))).isSome := by
      rw [List.find?_isSome]
      exact ⟨_, hmem, by decide⟩
    obtain ⟨m, hm⟩ := Option.isSome_iff_exists.mp hsome
    rw [hm]
    have hpred := List.find?_some hm
    rw [decide_eq_true_iff] at hpred
    rw [hpred]
  · intro hmem
    rw [chooseSwapPresentMode]
    have hnone : available_present_modes.find? (fun m =>
        decide (m = PresentModeKHR.mailbox)) = none := by
      rw [List.find?_eq_none]
      intro m hmmem hpred
      rw [decide_eq_true_iff] at hpred
      exact hmem (hpred ▸ hmmem)
    rw [hnone]
  · intro hne
    rw [chooseSwapExtent]
    rw [if_pos]
    intro hw
    apply hne
    have hh := hsentinel.mp hw
    cases hcur : capabilities.currentExtent
    rw [hcur] at hw hh
    simp only [Extent2D.mk.injEq]
    exact ⟨hw, hh⟩
  · intro heq
    rw [chooseSwapExtent]
    rw [if_neg]
    simp only [ne_eq, Decidable.not_not]
    rw [heq]

theorem C9_witness :
    chooseSwapSurfaceFormat [⟨Format.b8g8r8a8Unorm, ColorSpace.srgbNonlinear⟩,
        ⟨Format.b8g8r8a8Srgb, ColorSpace.srgbNonlinear⟩] =
      some ⟨Format.b8g8r8a8Srgb, ColorSpace.srgbNonlinear⟩ ∧
    chooseSwapPresentMode [PresentModeKHR.fifo, PresentModeKHR.mailbox] =
      PresentModeKHR.mailbox ∧
    chooseSwapExtent ⟨⟨800, 600⟩, ⟨1, 1⟩, ⟨4096, 4096⟩⟩ 1024 768 = ⟨800, 600⟩ :=
  have h := C9_swap_chain_parameter_selection
    [⟨Format.b8g8r8a8Unorm, ColorSpace.srgbNonlinear⟩,
      ⟨Format.b8g8r8a8Srgb, ColorSpace.srgbNonlinear⟩]
    [PresentModeKHR.fifo, PresentModeKHR.mailbox]
    ⟨⟨800, 600⟩, ⟨1, 1⟩, ⟨4096, 4096⟩⟩ 1024 768 (by decide) (by decide)
  ⟨h.1.1 (by decide), h.2.1.1 (by decide), h.2.2.1 (by decide)⟩

/-- Which of the Vulkan calls inside `endSingleTimeCommands` succeed:
`CommandBuffer::end`, `Queue::submit`, and `Queue::waitIdle` (the last models
the GPU work itself failing, e.g. device loss observed while draining the
queue). Each throws on failure in the C++ binding. -/
structure OneShotEnv where
  endOk : Bool
  submitOk : Bool
  waitIdleOk : Bool
  deriving DecidableEq, Repr

/-- The observable result of `endSingleTimeCommands`: whether an exception
escaped, whether the command buffer reached the graphics queue, whether the
queue was drained (`waitIdle` returned) before control left the function, and
whether `freeCommandBuffers` ran. -/
structure OneShotResult where
  threw : Bool
  submittedToQueue : Bool
  waitedIdle : Bool
  freedCommandBuffer : Bool
  deriving DecidableEq, Repr

/-- `VulkanContext::endSingleTimeCommands` (`vulkan_context.cpp:442-453`):
straight-line code `end`; `submit`; `waitIdle`; `freeCommandBuffers` with no
`try`/`catch`, so a throw at any step skips every later step, including the
free. -/
def endSingleTimeCommands (env : OneShotEnv) : OneShotResult :=
  if env.endOk = false then
    { threw := true, submittedToQueue := false, waitedIdle := false,
      freedCommandBuffer := false }
  else if env.submitOk = false then
    { threw := true, submittedToQueue := false, waitedIdle := false,
      freedCommandBuffer := false }
  else if env.waitIdleOk = false then
    { threw := true, submittedToQueue := true, waitedIdle := false,
      freedCommandBuffer := false }
  else
    { threw := false, submittedToQueue := true, waitedIdle := true,
      freedCommandBuffer := true }

/-- C7 counterexample: when `Queue::submit` itself fails (throws), control
leaves `endSingleTimeCommands` without reaching `freeCommandBuffers`, so the
command buffer is not freed back to the pool — refuting "freed on all exit
paths, including when the submission itself fails". -/
theorem C7_counterexample :
    (endSingleTimeCommands ⟨true, false, true⟩).threw = true ∧
      (endSingleTimeCommands ⟨true, false, true⟩).freedCommandBuffer = false := by
  decide

/-- C7 (amended): `endSingleTimeCommands` submits to the graphics queue and
synchronously drains it before any normal return, and frees the command
buffer on that path; but an exception from `end`, `submit` or `waitIdle`
propagates without freeing the command buffer, so the free is guaranteed only
on the non-throwing exit path. -/
theorem C7_endSingleTimeCommands (env : OneShotEnv) :
    ((endSingleTimeCommands env).threw = false →
        (endSingleTimeCommands env).submittedToQueue = true ∧
        (endSingleTimeCommands env).waitedIdle = true ∧
        (endSingleTimeCommands env).freedCommandBuffer = true) ∧
    ((endSingleTimeCommands env).freedCommandBuffer = true →
        (endSingleTimeCommands env).waitedIdle = true) ∧
    ((endSingleTimeCommands env).threw = true →
        (endSingleTimeCommands env).freedCommandBuffer = false) ∧
    ((endSingleTimeCommands env).threw = true ↔
        ¬ (env.endOk = true ∧ env.submitOk = true ∧ env.waitIdleOk = true)) := by
  cases he : env.endOk <;> cases hs : env.submitOk <;> cases hw : env.waitIdleOk <;>
    simp [endSingleTimeCommands, he, hs, hw]

theorem C7_witness :
    (endSingleTimeCommands ⟨true, true, true⟩).submittedToQueue = true ∧
      (endSingleTimeCommands ⟨true, true, true⟩).waitedIdle = true ∧
      (endSingleTimeCommands ⟨true, true, true⟩).freedCommandBuffer = true :=
  (C7_endSingleTimeCommands ⟨true, true, true⟩).1 (by decide)

/-- Which steps of an upload operation succeed. `stagingCreateOk` is the
`bool` result of the staging `createBuffer`; `mapMemoryOk`, the one-shot
`transition1Ok`/`copyOk`/`transition2Ok`, model Vulkan calls that throw on
failure; `destCreateOk` is the `bool` result of creating the device-local
destination (`createBuffer` in `mesh.cpp`, `createImage` in `texture.cpp`);
`imageLoadOk` is `stbi_load` succeeding; `imageViewOk`/`samplerOk` are the
`bool` results of `createImageView`/`createSampler`. -/
structure UploadEnv where
  imageLoadOk : Bool
  stagingCreateOk : Bool
  mapMemoryOk : Bool
  destCreateOk : Bool
  transition1Ok : Bool
  copyOk : Bool
  transition2Ok : Bool
  imageViewOk : Bool
  samplerOk : Bool
  deriving DecidableEq, Repr

/-- The staging-buffer bookkeeping of one upload call: the returned `bool`
(`none` when an exception escaped the call), whether the staging buffer was
created, and whether it was destroyed before control left the call. -/
structure UploadResult where
  returned : Option Bool
  stagingCreated : Bool
  stagingDestroyed : Bool
  deriving DecidableEq, Repr

namespace Mesh

/-- `Mesh::createVertexBuffer` (`mesh.cpp:56-88`): create the staging buffer
(return `false` if that fails); map/memcpy/unmap (`mapMemory` throws on
failure); create the device-local vertex buffer, destroying the staging
buffer and returning `false` on failure; `copyBuffer` through a one-shot
command buffer (its Vulkan calls throw on failure); destroy the staging
buffer; return `true`. `Mesh::createIndexBuffer` (`mesh.cpp:90-122`) is
textually identical up to buffer-usage flags, which this model does not
inspect. -/
def createVertexBuffer (env : UploadEnv) : UploadResult :=
  if env.stagingCreateOk = false then
    { returned := some false, stagingCreated := false, stagingDestroyed := false }
  else if env.mapMemoryOk = false then
    { returned := none, stagingCreated := true, stagingDestroyed := false }
  else if env.destCreateOk = false then
    { returned := some false, stagingCreated := true, stagingDestroyed := true }
  else if env.copyOk = false then
    { returned := none, stagingCreated := true, stagingDestroyed := false }
  else
    { returned := some true, stagingCreated := true, stagingDestroyed := true }

end Mesh

namespace Texture

/-- `Texture::loadFromFile` (`texture.cpp:23-67`): load pixels (return
`false` if that fails); create the staging buffer (return `false` on
failure); map/memcpy/unmap; create the device-local image, destroying the
staging buffer and returning `false` on failure; transition
undefined→transfer-dst, copy buffer→image, transition transfer-dst→shader
read (each a one-shot submission whose Vulkan calls throw on failure);
destroy the staging buffer; create the image view and sampler (returning
`false` on failure, after the staging buffer is gone); return `true`. -/
def loadFromFile (env : UploadEnv) : UploadResult :=
  if env.imageLoadOk = false then
    { returned := some false, stagingCreated := false, stagingDestroyed := false }
  else if env.stagingCreateOk = false then
    { returned := some false, stagingCreated := false, stagingDestroyed := false }
  else if env.mapMemoryOk = false then
    { returned := none, stagingCreated := true, stagingDestroyed := false }
  else if env.destCreateOk = false then
    { returned := some false, stagingCreated := true, stagingDestroyed := true }
  else if env.transition1Ok = false then
    { returned := none, stagingCreated := true, stagingDestroyed := false }
  else if env.copyOk = false then
    { returned := none, stagingCreated := true, stagingDestroyed := false }
  else if env.transition2Ok = false then
    { returned := none, stagingCreated := true, stagingDestroyed := false }
  else if env.imageViewOk = false ∨ env.samplerOk = false then
    { returned := some false, stagingCreated := true, stagingDestroyed := true }
  else
    { returned := some true, stagingCreated := true, stagingDestroyed := true }

end Texture

/-- C5 counterexample: in the vertex-buffer upload, when the copy's one-shot
submission fails (throws) after the staging buffer was created, control
leaves `createVertexBuffer` by the exception with the staging buffer not
destroyed — refuting "destroyed unconditionally on every exit path of the
upload, whether or not the copy succeeded". -/
theorem C5_counterexample :
    (Mesh.createVertexBuffer ⟨true, true, true, true, true, false, true, true, true⟩).stagingCreated
        = true ∧
      (Mesh.createVertexBuffer
          ⟨true, true, true, true, true, false, true, true, true⟩).stagingDestroyed = false := by
  decide

/-- C5 (amended): in both uploads the staging buffer is transient — on every
exit path where the call itself returns (`true` or `false`), a created
staging buffer has been destroyed, and it is never retained past the call; but
when the map, a layout transition, or the copy fails by exception, the
exception propagates out of the upload without destroying the staging
buffer. -/
theorem C5_staging_lifetime (env : UploadEnv) :
    ((Mesh.createVertexBuffer env).stagingCreated = true →
        (Mesh.createVertexBuffer env).returned ≠ none →
        (Mesh.createVertexBuffer env).stagingDestroyed = true) ∧
    ((Mesh.createVertexBuffer env).returned = none →
        (Mesh.createVertexBuffer env).stagingCreated = true ∧
        (Mesh.createVertexBuffer env).stagingDestroyed = false) ∧
    ((Mesh.createVertexBuffer env).stagingDestroyed = true →
        (Mesh.createVertexBuffer env).stagingCreated = true) ∧
    ((Texture.loadFromFile env).stagingCreated = true →
        (Texture.loadFromFile env).returned ≠ none →
        (Texture.loadFromFile env).stagingDestroyed = true) ∧
    ((Texture.loadFromFile env).returned = none →
        (Texture.loadFromFile env).stagingCreated = true ∧
        (Texture.loadFromFile env).stagingDestroyed = false) ∧
    ((Texture.loadFromFile env).stagingDestroyed = true →
        (Texture.loadFromFile env).stagingCreated = true) := by
  obtain ⟨i, s, m, d, t1, c, t2, v, sa⟩ := env
  cases i <;> cases s <;> cases m <;> cases d <;> cases t1 <;> cases c <;> cases t2 <;>
    cases v <;> cases sa <;>
      simp [Mesh.createVertexBuffer, Texture.loadFromFile]

theorem C5_witness :
    (Mesh.createVertexBuffer
        ⟨true, true, true, true, true, true, true, true, true⟩).stagingDestroyed = true :=
  (C5_staging_lifetime ⟨true, true, true, true, true, true, true, true, true⟩).1
    (by decide) (by decide)

/-- The observable actions of `VulkanContext::recreateSwapChain`
(`vulkan_context.cpp:455-468`) and `cleanupSwapChain`
(`vulkan_context.cpp:470-478`). `destroyDevice` and `destroyCommandPool` are
included so that their absence from every recreation trace is expressible. -/
inductive CtxEv where
  | getFramebufferSize (w h : Nat)
  | waitEvents
  | deviceWaitIdle
  | destroyImageView
  | destroySwapchainKHR
  | destroyDevice
  | destroyCommandPool
  | createSwapChain (w h : Nat)
  | createImageViews
  deriving DecidableEq, Repr

/-- Events a minimized-window wait may emit: framebuffer-size polls and
`glfwWaitEvents`. -/
def isPollOrWait : CtxEv → Bool
  | CtxEv.getFramebufferSize _ _ => true
  | CtxEv.waitEvents => true
  | _ => false

/-- The `while (width == 0 || height == 0)` loop of `recreateSwapChain`
(`vulkan_context.cpp:458-461`): given the value of the poll already performed
and the sizes the window will report on subsequent polls, re-poll and
`glfwWaitEvents` until a nonzero size is observed; `none` models the loop
never exiting (the window stays minimized forever). Returns the accepted size
and the emitted events. -/
def sizeWaitLoop : Nat × Nat → List (Nat × Nat) → Option ((Nat × Nat) × List CtxEv)
  | (w, h), rest =>
    if w = 0 ∨ h = 0 then
      match rest with
      | [] => none
      | s :: rest' =>
        match sizeWaitLoop s rest' with
        | none => none
        | some (sz, evs) =>
          some (sz, CtxEv.getFramebufferSize s.1 s.2 :: CtxEv.waitEvents :: evs)
    else
      some ((w, h), [])

/-- `VulkanContext::recreateSwapChain` (`vulkan_context.cpp:455-468`):
poll the framebuffer size, busy-wait (poll + `glfwWaitEvents`) while it is
zero in either dimension, then `device.waitIdle()`, then `cleanupSwapChain()`
(destroy the image views and the swap chain), then
`createSwapChain() && createImageViews()` (short-circuit: the views are built
only when the swap chain creation succeeded). `sizes` is the sequence of
framebuffer sizes successive polls observe; the result is the returned `bool`
and the emitted event trace, `none` when the wait loop never exits. -/
def recreateSwapChain (sizes : List (Nat × Nat)) (createOk viewsOk : Bool) :
    Option (Bool × List CtxEv) :=
  match sizes with
  | [] => none
  | s :: rest =>
    match sizeWaitLoop s rest with
    | none => none
    | some ((fw, fh), loopEvs) =>
      some (createOk && viewsOk,
        (CtxEv.getFramebufferSize s.1 s.2 :: loopEvs) ++
          [CtxEv.deviceWaitIdle, CtxEv.destroyImageView, CtxEv.destroySwapchainKHR,
            CtxEv.createSwapChain fw fh] ++
          (if createOk then [CtxEv.createImageViews] else []))

/-- The ordering asserted by the claim, as a predicate on traces: the
device-idle wait precedes every framebuffer-size poll and event wait (the
claim puts the size wait after idling and teardown). Scanning from the front,
the first event drawn from {device-idle, size-poll, wait-events} must be the
device-idle wait. -/
def devIdleBeforeSizePoll : List CtxEv → Bool
  | [] => true
  | CtxEv.deviceWaitIdle :: _ => true
  | CtxEv.getFramebufferSize _ _ :: _ => false
  | CtxEv.waitEvents :: _ => false
  | _ :: rest => devIdleBeforeSizePoll rest

theorem sizeWaitLoop_some (rest : List (Nat × Nat)) :
    ∀ (first : Nat × Nat) (fw fh : Nat) (evs : List CtxEv),
      sizeWaitLoop first rest = some ((fw, fh), evs) →
      ¬(fw = 0 ∨ fh = 0) ∧ ∀ e ∈ evs, isPollOrWait e = true := by
  induction rest with
  | nil =>
    intro first fw fh evs hsome
    obtain ⟨w1, h1⟩ := first
    rw [sizeWaitLoop] at hsome
    by_cases hz : w1 = 0 ∨ h1 = 0
    · rw [if_pos hz] at hsome
      exact absurd hsome (by simp)
    · rw [if_neg hz] at hsome
      obtain ⟨⟨hfw, hfh⟩, hevs⟩ : (w1 = fw ∧ h1 = fh) ∧ evs = [] := by
        simpa using hsome
      subst hfw; subst hfh; subst hevs
      exact ⟨hz, by simp⟩
  | cons s rest' ih =>
    intro first fw fh evs hsome
    obtain ⟨w1, h1⟩ := first
    rw [sizeWaitLoop] at hsome
    by_cases hz : w1 = 0 ∨ h1 = 0
    · rw [if_pos hz] at hsome
      cases hrec : sizeWaitLoop s rest' with
      | none => rw [hrec] at hsome; exact absurd hsome (by simp)
      | some r =>
        obtain ⟨⟨fw', fh'⟩, evs'⟩ := r
        rw [hrec] at hsome
        obtain ⟨hsz, hevs⟩ : (fw', fh') = (fw, fh) ∧
            evs = CtxEv.getFramebufferSize s.1 s.2 :: CtxEv.waitEvents :: evs' := by
          have := Option.some.inj hsome
          constructor
          · exact congrArg Prod.fst this
          · exact (congrArg Prod.snd this).symm
        obtain ⟨hfw, hfh⟩ : fw' = fw ∧ fh' = fh := by simpa using hsz
        rw [← hfw, ← hfh]
        obtain ⟨hnz, hall⟩ := ih s fw' fh' evs' hrec
        refine ⟨hnz, ?_⟩
        intro e he
        rw [hevs] at he
        rw [List.mem_cons] at he
        rcases he with rfl | he
        · rfl
        rw [List.mem_cons] at he
        rcases he with rfl | he
        · rfl
        exact hall e he
    · rw [if_neg hz] at hsome
      obtain ⟨⟨hfw, hfh⟩, hevs⟩ : (w1 = fw ∧ h1 = fh) ∧ evs = [] := by
        simpa using hsome
      subst hfw; subst hfh; subst hevs
      exact ⟨hz, by simp⟩

theorem sizeWaitLoop_none_of_all_zero (first : Nat × Nat) (rest : List (Nat × Nat))
    (hf : first.1 = 0 ∨ first.2 = 0) (hall : ∀ sz ∈ rest, sz.1 = 0 ∨ sz.2 = 0) :
    sizeWaitLoop first rest = none := by
  induction rest generalizing first with
  | nil =>
    obtain ⟨w1, h1⟩ := first
    rw [sizeWaitLoop]
    rw [if_pos hf]
  | cons s rest' ih =>
    obtain ⟨w1, h1⟩ := first
    rw [sizeWaitLoop]
    rw [if_pos hf]
    have hrec : sizeWaitLoop s rest' = none :=
      ih s (hall s (by simp)) (fun sz hsz => hall sz (by simp [hsz]))
    rw [hrec]

/-- C6 counterexample: with a minimized window whose next poll reports
800×600, the recreation trace begins with framebuffer-size polls and an event
wait, and only then waits for the device to be idle — so the claimed order
(idle first, then teardown, then the size wait) fails on this concrete run. -/
theorem C6_counterexample :
    recreateSwapChain [(0, 0), (800, 600)] true true =
      some (true, [CtxEv.getFramebufferSize 0 0, CtxEv.getFramebufferSize 800 600,
        CtxEv.waitEvents, CtxEv.deviceWaitIdle, CtxEv.destroyImageView,
        CtxEv.destroySwapchainKHR, CtxEv.createSwapChain 800 600,
        CtxEv.createImageViews]) ∧
      devIdleBeforeSizePoll [CtxEv.getFramebufferSize 0 0, CtxEv.getFramebufferSize 800 600,
        CtxEv.waitEvents, CtxEv.deviceWaitIdle, CtxEv.destroyImageView,
        CtxEv.destroySwapchainKHR, CtxEv.createSwapChain 800 600,
        CtxEv.createImageViews] = false := by
  decide

/-- C6 (amended): `recreateSwapChain` first waits until the framebuffer size
is nonzero in both dimensions (polling and parking on events while
minimized), then blocks until the device is idle, then tears down the
swap-chain image views and swap chain — never the device or command pool —
then rebuilds the swap chain (and its image views when swap-chain creation
succeeded); it never creates a swap chain while the framebuffer size is zero
in either dimension, and when every poll reports a zero dimension it stays
blocked and never reaches teardown or creation. -/
theorem C6_recreateSwapChain_order (sizes : List (Nat × Nat)) (createOk viewsOk : Bool) :
    (∀ ret evs, recreateSwapChain sizes createOk viewsOk = some (ret, evs) →
      (∃ pollEvs fw fh,
        (∀ e ∈ pollEvs, isPollOrWait e = true) ∧ ¬(fw = 0 ∨ fh = 0) ∧
        evs = pollEvs ++ [CtxEv.deviceWaitIdle, CtxEv.destroyImageView,
          CtxEv.destroySwapchainKHR, CtxEv.createSwapChain fw fh] ++
          (if createOk then [CtxEv.createImageViews] else [])) ∧
      (∀ w h, CtxEv.createSwapChain w h ∈ evs → ¬(w = 0 ∨ h = 0)) ∧
      CtxEv.destroyDevice ∉ evs ∧ CtxEv.destroyCommandPool ∉ evs) ∧
    ((∀ sz ∈ sizes, sz.1 = 0 ∨ sz.2 = 0) →
      recreateSwapChain sizes createOk viewsOk = none) := by
  constructor
  · intro ret evs hsome
    cases hs : sizes with
    | nil => rw [hs] at hsome; rw [recreateSwapChain] at hsome; exact absurd hsome (by simp)
    | cons s rest =>
      rw [hs] at hsome
      rw [recreateSwapChain] at hsome
      cases hloop : sizeWaitLoop s rest with
      | none => rw [hloop] at hsome; exact absurd hsome (by simp)
      | some r =>
        obtain ⟨⟨fw, fh⟩, loopEvs⟩ := r
        rw [hloop] at hsome
        have hevs : evs = (CtxEv.getFramebufferSize s.1 s.2 :: loopEvs) ++
            [CtxEv.deviceWaitIdle, CtxEv.destroyImageView, CtxEv.destroySwapchainKHR,
              CtxEv.createSwapChain fw fh] ++
            (if createOk then [CtxEv.createImageViews] else []) :=
          (congrArg Prod.snd (Option.some.inj hsome)).symm
        obtain ⟨hnz, hpoll⟩ := sizeWaitLoop_some rest s fw fh loopEvs hloop
        refine ⟨⟨CtxEv.getFramebufferSize s.1 s.2 :: loopEvs, fw, fh, ?_, hnz, hevs⟩,
          ?_, ?_, ?_⟩
        · intro e he
          rw [List.mem_cons] at he
          rcases he with rfl | he
          · rfl
          · exact hpoll e he
        · intro w h hmem
          rw [hevs] at hmem
          simp only [List.append_assoc, List.mem_append, List.mem_cons,
            List.mem_singleton] at hmem
          rcases hmem with hmem | hmem | hmem
          · cases hmem with
            | inl hmem => exact absurd hmem (by simp)
            | inr hmem =>
              have := hpoll _ hmem
              simp [isPollOrWait] at this
          · rcases hmem with hmem | hmem | hmem | hmem
            · exact absurd hmem (by simp)
            · exact absurd hmem (by simp)
            · exact absurd hmem (by simp)
            · obtain ⟨hw, hh⟩ : w = fw ∧ h = fh := by
                simpa using hmem
              rw [hw, hh]
              exact hnz
          · by_cases hco : createOk = true
            · rw [if_pos hco] at hmem
              simp at hmem
            · rw [if_neg hco] at hmem
              simp at hmem
        · rw [hevs]
          simp only [List.append_assoc, List.mem_append, List.mem_cons, List.mem_singleton]
          intro hmem
          rcases hmem with hmem | hmem | hmem
          · cases hmem with
            | inl hmem => exact absurd hmem (by simp)
            | inr hmem =>
              have := hpoll _ hmem
              simp [isPollOrWait] at this
          · rcases hmem with hmem | hmem | hmem | hmem <;> exact absurd hmem (by simp)
          · by_cases hco : createOk = true
            · rw [if_pos hco] at hmem
              simp at hmem
            · rw [if_neg hco] at hmem
              simp at hmem
        · rw [hevs]
          simp only [List.append_assoc, List.mem_append, List.mem_cons, List.mem_singleton]
          intro hmem
          rcases hmem with hmem | hmem | hmem
          · cases hmem with
            | inl hmem => exact absurd hmem (by simp)
            | inr hmem =>
              have := hpoll _ hmem
              simp [isPollOrWait] at this
          · rcases hmem with hmem | hmem | hmem | hmem <;> exact absurd hmem (by simp)
          · by_cases hco : createOk = true
            · rw [if_pos hco] at hmem
              simp at hmem
            · rw [if_neg hco] at hmem
              simp at hmem
  · intro hall
    cases hs : sizes with
    | nil => rw [recreateSwapChain]
    | cons s rest =>
      rw [recreateSwapChain]
      have hrec : sizeWaitLoop s rest = none := by
        apply sizeWaitLoop_none_of_all_zero
        · exact hall s (by rw [hs]; simp)
        · intro sz hsz
          exact hall sz (by rw [hs]; simp [hsz])
      rw [hrec]

theorem C6_witness :
    recreateSwapChain [(0, 0), (0, 0), (0, 0)] true true = none :=
  (C6_recreateSwapChain_order [(0, 0), (0, 0), (0, 0)] true true).2 (by decide)

/-- The `vk::Result` values `drawFrame` inspects from `acquireNextImageKHR`
and `presentKHR`, plus representative error codes those calls can report. -/
inductive VkResult where
  | success
  | suboptimalKHR
  | errorOutOfDateKHR
  | errorDeviceLost
  | errorSurfaceLostKHR
  deriving DecidableEq, Repr

/-- `MAX_FRAMES_IN_FLIGHT` (`vulkan_renderer.h:99`). -/
def MAX_FRAMES_IN_FLIGHT : Nat := 2

/-- The renderer member state `drawFrame` reads and writes:
`current_frame_` (a slot in `[0, MAX_FRAMES_IN_FLIGHT)`),
`framebuffer_resized_`, and whether each slot's `in_flight_fences_` entry is
currently signaled. -/
structure RendererState where
  currentFrame : Fin 2
  framebufferResized : Bool
  inFlightFenceSignaled : Fin 2 → Bool

/-- What one `drawFrame` call did: the member state when control left the
function (also when it left by a throw — C++ member writes are not rolled
back), whether an exception escaped, whether `recreateSwapChain` was
triggered, and whether the slot's command buffer was reset/re-recorded,
submitted, and presented. -/
structure DrawFrameResult where
  state : RendererState
  threw : Bool
  recreatedSwapChain : Bool
  recorded : Bool
  submitted : Bool
  presented : Bool

/-- `VulkanRenderer::drawFrame` (`vulkan_renderer.cpp:701-813`), driven by the
results the driver returns for acquire and present. `waitForFences` blocks
until slot `current_frame_`'s fence is signaled, so after it returns that
fence is signaled. On out-of-date acquire: recreate and return (no reset, no
record, no submit, no present, counter unchanged). On another acquire error:
throw. Otherwise: reset the slot's fence, reset/record/submit the slot's
command buffer, present; on out-of-date/suboptimal present or a pending
resize flag, clear the flag and recreate; on another present error, throw
(skipping the final counter advance); finally advance
`current_frame_ = (current_frame_ + 1) % MAX_FRAMES_IN_FLIGHT`. -/
def drawFrame (s : RendererState) (acquireResult presentResult : VkResult) :
    DrawFrameResult :=
  let afterWait : RendererState :=
    { s with inFlightFenceSignaled :=
        Function.update s.inFlightFenceSignaled s.currentFrame true }
  if acquireResult = VkResult.errorOutOfDateKHR then
    { state := afterWait, threw := false, recreatedSwapChain := true,
      recorded := false, submitted := false, presented := false }
  else if acquireResult ≠ VkResult.success ∧ acquireResult ≠ VkResult.suboptimalKHR then
    { state := afterWait, threw := true, recreatedSwapChain := false,
      recorded := false, submitted := false, presented := false }
  else
    let afterReset : RendererState :=
      { afterWait with inFlightFenceSignaled :=
          Function.update afterWait.inFlightFenceSignaled s.currentFrame false }
    if presentResult = VkResult.errorOutOfDateKHR ∨
        presentResult = VkResult.suboptimalKHR ∨ s.framebufferResized then
      { state := { afterReset with
                    framebufferResized := false,
                    currentFrame := s.currentFrame + 1 },
        threw := false, recreatedSwapChain := true,
        recorded := true, submitted := true, presented := true }
    else if presentResult ≠ VkResult.success then
      { state := afterReset, threw := true, recreatedSwapChain := false,
        recorded := true, submitted := true, presented := true }
    else
      { state := { afterReset with currentFrame := s.currentFrame + 1 },
        threw := false, recreatedSwapChain := false,
        recorded := true, submitted := true, presented := true }

/-- C4 counterexample: a frame that reaches submit but whose present reports
device loss makes `drawFrame` throw at the present-result check
(`vulkan_renderer.cpp:808-810`) before the counter advance at line 812, so
the slot counter does not advance — refuting "advances at the end of the
frame regardless of the present outcome". -/
theorem C4_counterexample :
    (drawFrame ⟨0, false, fun _ => true⟩ VkResult.success
        VkResult.errorDeviceLost).submitted = true ∧
      (drawFrame ⟨0, false, fun _ => true⟩ VkResult.success
        VkResult.errorDeviceLost).threw = true ∧
      (drawFrame ⟨0, false, fun _ => true⟩ VkResult.success
        VkResult.errorDeviceLost).state.currentFrame = 0 := by
  refine ⟨rfl, rfl, rfl⟩

/-- C4 (amended): when acquisition reports out-of-date, `drawFrame` triggers
swap-chain recreation and returns without recording, submitting or
presenting, leaving the slot counter unchanged; every frame that reaches
submit and returns normally advances the counter to `(slot + 1) mod 2`,
regardless of whether present reported success, suboptimal or out-of-date
and regardless of the resize flag; but when present reports any other error,
`drawFrame` throws before the advance and the counter is unchanged. -/
theorem C4_slot_counter (s : RendererState) (acq pres : VkResult) :
    (acq = VkResult.errorOutOfDateKHR →
        (drawFrame s acq pres).recreatedSwapChain = true ∧
        (drawFrame s acq pres).recorded = false ∧
        (drawFrame s acq pres).submitted = false ∧
        (drawFrame s acq pres).presented = false ∧
        (drawFrame s acq pres).threw = false ∧
        (drawFrame s acq pres).state.currentFrame = s.currentFrame) ∧
    ((drawFrame s acq pres).submitted = true → (drawFrame s acq pres).threw = false →
        (drawFrame s acq pres).state.currentFrame = s.currentFrame + 1) ∧
    ((drawFrame s acq pres).submitted = true → (drawFrame s acq pres).threw = true →
        (drawFrame s acq pres).state.currentFrame = s.currentFrame ∧
        pres ≠ VkResult.success ∧ pres ≠ VkResult.suboptimalKHR ∧
        pres ≠ VkResult.errorOutOfDateKHR ∧ s.framebufferResized = false) := by
  obtain ⟨cf, fr, fences⟩ := s
  cases acq <;> cases pres <;> cases fr <;> simp [drawFrame]

theorem C4_witness :
    (drawFrame ⟨0, false, fun _ => true⟩ VkResult.errorOutOfDateKHR
        VkResult.success).recreatedSwapChain = true ∧
      (drawFrame ⟨0, false, fun _ => true⟩ VkResult.errorOutOfDateKHR
        VkResult.success).recorded = false ∧
      (drawFrame ⟨0, false, fun _ => true⟩ VkResult.errorOutOfDateKHR
        VkResult.success).submitted = false ∧
      (drawFrame ⟨0, false, fun _ => true⟩ VkResult.errorOutOfDateKHR
        VkResult.success).presented = false ∧
      (drawFrame ⟨0, false, fun _ => true⟩ VkResult.errorOutOfDateKHR
        VkResult.success).threw = false ∧
      (drawFrame ⟨0, false, fun _ => true⟩ VkResult.errorOutOfDateKHR
        VkResult.success).state.currentFrame = (0 : Fin 2) :=
  (C4_slot_counter ⟨0, false, fun _ => true⟩ VkResult.errorOutOfDateKHR VkResult.success).1 rfl

/-- C10: whenever `drawFrame` does not take the reset-and-record path — in
particular when it aborts early because acquisition reported out-of-date —
the slot's fence has not been reset (`resetFences` runs only after a
successful or suboptimal acquire, `vulkan_renderer.cpp:721`), so the fence is
still signaled when the call returns; on the out-of-date abort the slot
counter is unchanged, hence the next `drawFrame` waits on that same slot's
still-signaled fence and its wait returns immediately — an aborted frame
cannot deadlock a later frame on its own fence. -/
theorem C10_aborted_frame_keeps_fence (s : RendererState) (acq pres : VkResult)
    (h1 : acq ≠ VkResult.success) (h2 : acq ≠ VkResult.suboptimalKHR) :
    (drawFrame s acq pres).state.inFlightFenceSignaled s.currentFrame = true ∧
      (acq = VkResult.errorOutOfDateKHR →
        (drawFrame s acq pres).state.currentFrame = s.currentFrame ∧
        (drawFrame s acq pres).state.inFlightFenceSignaled
          ((drawFrame s acq pres).state.currentFrame) = true ∧
        (drawFrame s acq pres).recorded = false ∧
        (drawFrame s acq pres).threw = false) := by
  cases acq with
  | success => exact absurd rfl h1
  | suboptimalKHR => exact absurd rfl h2
  | errorOutOfDateKHR =>
    refine ⟨?_, fun _ => ⟨rfl, ?_, rfl, rfl⟩⟩ <;>
      simp [drawFrame, Function.update_same]
  | errorDeviceLost =>
    refine ⟨?_, fun hc => absurd hc (by simp)⟩
    simp [drawFrame, Function.update_same]
  | errorSurfaceLostKHR =>
    refine ⟨?_, fun hc => absurd hc (by simp)⟩
    simp [drawFrame, Function.update_same]

theorem C10_witness :
    (drawFrame ⟨0, false, fun _ => false⟩ VkResult.errorOutOfDateKHR
        VkResult.success).state.currentFrame = (0 : Fin 2) ∧
      (drawFrame ⟨0, false, fun _ => false⟩ VkResult.errorOutOfDateKHR
        VkResult.success).state.inFlightFenceSignaled
        ((drawFrame ⟨0, false, fun _ => false⟩ VkResult.errorOutOfDateKHR
          VkResult.success).state.currentFrame) = true ∧
      (drawFrame ⟨0, false, fun _ => false⟩ VkResult.errorOutOfDateKHR
        VkResult.success).recorded = false ∧
      (drawFrame ⟨0, false, fun _ => false⟩ VkResult.errorOutOfDateKHR
        VkResult.success).threw = false :=
  (C10_aborted_frame_keeps_fence ⟨0, false, fun _ => false⟩ VkResult.errorOutOfDateKHR
    VkResult.success (by decide) (by decide)).2 rfl

/-- `VulkanRenderer::createSyncObjects` (`vulkan_renderer.cpp:592-616`)
creates every `in_flight_fences_[i]` with
`fence_info.flags = vk::FenceCreateFlagBits::eSignaled` (line 601): each
slot's fence starts life signaled. -/
def createSyncObjectsFenceSignaled : Fin 2 → Bool := fun _ => true

/-- The CPU/GPU synchronization state the frame loop manipulates:
`current_frame_`, whether each slot's fence is signaled, and whether a GPU
submission referencing that slot's command buffer (and set to signal that
slot's fence, `vulkan_renderer.cpp:791`) is still outstanding. -/
structure SyncState where
  slot : Fin 2
  fenceSignaled : Fin 2 → Bool
  pendingSubmission : Fin 2 → Bool

/-- The state right after `createSyncObjects`: slot counter 0, all fences
signaled, no submission outstanding. -/
def initSyncState : SyncState :=
  { slot := 0, fenceSignaled := createSyncObjectsFenceSignaled,
    pendingSubmission := fun _ => false }

/-- Interleaved renderer/GPU transitions. `gpuComplete i`: the GPU finishes
the outstanding submission for slot `i` and signals its fence (the fence
passed at submit, `vulkan_renderer.cpp:791`). `frameAborted`: a `drawFrame`
whose `waitForFences` returned (possible only with the slot's fence
signaled, line 704) and whose acquire reported out-of-date; it touches no
fence or submission state. `frameSubmitted`: a `drawFrame` whose wait
returned, which then resets the slot's fence (line 721), resets and
re-records the slot's command buffer (lines 723-774), submits it with the
slot's fence as completion signal (line 791), and advances the slot counter
mod 2 (line 812). -/
inductive SyncStep : SyncState → SyncState → Prop where
  | gpuComplete (s : SyncState) (i : Fin 2) (h : s.pendingSubmission i = true) :
      SyncStep s { s with
        fenceSignaled := Function.update s.fenceSignaled i true,
        pendingSubmission := Function.update s.pendingSubmission i false }
  | frameAborted (s : SyncState) (h : s.fenceSignaled s.slot = true) :
      SyncStep s s
  | frameSubmitted (s : SyncState) (h : s.fenceSignaled s.slot = true) :
      SyncStep s { slot := s.slot + 1,
                   fenceSignaled := Function.update s.fenceSignaled s.slot false,
                   pendingSubmission := Function.update s.pendingSubmission s.slot true }

/-- States the frame loop can reach from the post-`createSyncObjects`
state. -/
inductive SyncReachable : SyncState → Prop where
  | init : SyncReachable initSyncState
  | step {s s' : SyncState} : SyncReachable s → SyncStep s s' → SyncReachable s'

/-- A signaled fence means no submission referencing that slot's command
buffer is outstanding. -/
def FencePendingInv (s : SyncState) : Prop :=
  ∀ i : Fin 2, s.fenceSignaled i = true → s.pendingSubmission i = false

theorem fencePendingInv_step {s s' : SyncState} (hstep : SyncStep s s')
    (ih : FencePendingInv s) : FencePendingInv s' := by
  cases hstep with
  | gpuComplete i hp =>
    intro j hj
    by_cases hij : j = i
    · subst hij
      simp only [Function.update_same]
    · simp only [Function.update_noteq hij] at hj ⊢
      exact ih j hj
  | frameAborted hf => exact ih
  | frameSubmitted hf =>
    intro j hj
    by_cases hij : j = s.slot
    · subst hij
      simp only [Function.update_same] at hj
      exact absurd hj (by simp)
    · simp only [Function.update_noteq hij] at hj ⊢
      exact ih j hj

theorem fencePendingInv_of_reachable (s : SyncState) (h : SyncReachable s) :
    FencePendingInv s := by
  induction h with
  | init => intro i _; rfl
  | step hr hstep ih => exact fencePendingInv_step hstep ih

/-- The per-call actions of `drawFrame` in program order. -/
inductive FrameEv where
  | waitFence (slot : Fin 2)
  | acquireImage
  | recreateSwapChain
  | throwAcquireError
  | updateUniforms
  | resetFence (slot : Fin 2)
  | resetCommandBuffer (slot : Fin 2)
  | recordCommandBuffer (slot : Fin 2)
  | submit (slot : Fin 2)
  | present
  | throwPresentError
  | advanceFrame
  deriving DecidableEq, Repr

/-- The action sequence of one `VulkanRenderer::drawFrame` call
(`vulkan_renderer.cpp:701-813`) as a function of the slot, the acquire and
present results, and the resize flag: wait on `in_flight_fences_[current_frame_]`
(line 704), acquire (line 707); on out-of-date recreate and return (710-713);
on another acquire error throw (714-716); otherwise update uniforms (718-719),
reset the slot's fence (721), reset (723) and record (725-774) the slot's
command buffer, submit (791), present (802); then recreate on
out-of-date/suboptimal/resize (804-807), throw on another present error
(808-810), and advance the counter (812). -/
def drawFrameTrace (slot : Fin 2) (acq pres : VkResult) (resized : Bool) : List FrameEv :=
  FrameEv.waitFence slot :: FrameEv.acquireImage ::
    (if acq = VkResult.errorOutOfDateKHR then
      [FrameEv.recreateSwapChain]
    else if acq ≠ VkResult.success ∧ acq ≠ VkResult.suboptimalKHR then
      [FrameEv.throwAcquireError]
    else
      FrameEv.updateUniforms :: FrameEv.resetFence slot ::
        FrameEv.resetCommandBuffer slot :: FrameEv.recordCommandBuffer slot ::
        FrameEv.submit slot :: FrameEv.present ::
        (if pres = VkResult.errorOutOfDateKHR ∨ pres = VkResult.suboptimalKHR ∨ resized then
          [FrameEv.recreateSwapChain, FrameEv.advanceFrame]
        else if pres ≠ VkResult.success then
          [FrameEv.throwPresentError]
        else
          [FrameEv.advanceFrame]))

/-- Left-to-right scan of a frame trace: every reset or re-record of slot
`i`'s command buffer must come after a fence wait on slot `i` has returned
(`seen` records whether one has been passed). -/
def recordOnlyAfterFenceWait (i : Fin 2) : List FrameEv → Bool → Bool
  | [], _ => true
  | FrameEv.waitFence j :: rest, seen =>
      recordOnlyAfterFenceWait i rest (seen || j == i)
  | FrameEv.resetCommandBuffer j :: rest, seen =>
      (!(j == i) || seen) && recordOnlyAfterFenceWait i rest seen
  | FrameEv.recordCommandBuffer j :: rest, seen =>
      (!(j == i) || seen) && recordOnlyAfterFenceWait i rest seen
  | _ :: rest, seen => recordOnlyAfterFenceWait i rest seen

/-- C1: the frame-slot fence invariant. (a) `createSyncObjects` creates every
slot's fence signaled, and in particular the very first `waitForFences` is on
an already-signaled fence, so it returns immediately. (b) In every reachable
interleaving of frame-loop and GPU steps, whenever slot `i`'s fence is
signaled — the only condition under which `drawFrame`'s wait returns and the
slot's command buffer may be reset and re-recorded — no GPU submission
referencing slot `i`'s command buffer is outstanding. (c) Within any single
`drawFrame` trace, every reset/re-record of slot `i`'s command buffer is
preceded by the wait on slot `i`'s fence having returned. -/
theorem C1_frame_slot_fence_invariant :
    (∀ i : Fin 2, createSyncObjectsFenceSignaled i = true) ∧
      initSyncState.fenceSignaled initSyncState.slot = true ∧
      (∀ s : SyncState, SyncReachable s → s.fenceSignaled s.slot = true →
        s.pendingSubmission s.slot = false) ∧
      (∀ (slot : Fin 2) (acq pres : VkResult) (resized : Bool),
        recordOnlyAfterFenceWait slot (drawFrameTrace slot acq pres resized) false = true) := by
  refine ⟨fun i => rfl, rfl, ?_, ?_⟩
  · intro s hs hf
    exact fencePendingInv_of_reachable s hs s.slot hf
  · intro slot acq pres resized
    cases acq <;> cases pres <;> cases resized <;>
      simp [drawFrameTrace, recordOnlyAfterFenceWait]

theorem C1_witness :
    initSyncState.pendingSubmission initSyncState.slot = false :=
  C1_frame_slot_fence_invariant.2.2.1 initSyncState SyncReachable.init rfl

end VkSpec
